import Mathlib

/-!
Verification development for the note-duel backend (a DLC based betting
service).  The Rust source is embedded shallowly: database tables become
lists of rows inside a `Db` value, the diesel queries become pure list
operations, and the fallible cryptographic primitives (point decoding,
adaptor signature verification, signature decryption, relay publication)
are abstracted as explicit function parameters so that the control flow of
the route handlers and of the attestation listener is reproduced exactly.
-/

namespace NoteDuel

/-- Event identifiers (nostr EventId, a 32 byte hash) are modelled as
naturals; the distinguished all zero identifier used as the settlement
sentinel is 0. -/
abbrev EventId := Nat

def EventId.allZeros : EventId := 0

/-- X-only public keys, modelled abstractly. -/
abbrev PubKey := Nat

/-- Opaque encrypted (adaptor) signatures. -/
abbrev EncSig := Nat

/-- Raw signed messages (the event id bytes passed to Message raw). -/
abbrev Msg := Nat

/-- Curve points (verification and encryption keys). -/
abbrev Pt := Nat

/-- A nostr unsigned event: only the fields the backend reads (the author
public key and the content derived id). -/
structure UnsignedEvent where
  pubkey : PubKey
  id : EventId
deriving DecidableEq

/-- A finalized nostr event as produced by add_signature; the backend only
uses its id. -/
structure SignedEvent where
  id : EventId
deriving DecidableEq

/-- dlc_messages EventDescriptor restricted to the two constructors the
code matches on. -/
inductive EventDescriptor where
  | enumEvent (outcomes : List String)
  | digitDecompositionEvent
deriving DecidableEq

/-- An oracle announcement: public key, nonces and the event descriptor. -/
structure OracleAnnouncement where
  oracle_public_key : Nat
  oracle_nonces : List Nat
  event_descriptor : EventDescriptor
deriving DecidableEq

/-- An oracle attestation: attested outcome labels and the oracle Schnorr
signatures (modelled opaquely). -/
structure OracleAttestation where
  outcomes : List String
  signatures : List Nat
deriving DecidableEq

/-- A row of the bets table (src/models/bet.rs).  The Rust struct stores
the announcement and events as bytes or JSON and re-parses them in
accessors; here they are kept structured (the codec round trips exactly).
The created_at timestamp is never read by the code and is omitted. -/
structure Bet where
  id : Int
  oracle_announcement : OracleAnnouncement
  user_a : PubKey
  win_a : UnsignedEvent
  lose_a : UnsignedEvent
  user_b : PubKey
  win_b : UnsignedEvent
  lose_b : UnsignedEvent
  oracle_event_id : EventId
  needs_reply : Bool
  win_outcome_event_id : Option EventId
  lose_outcome_event_id : Option EventId
deriving DecidableEq

/-- A row of the sigs table (src/models/sig.rs). -/
structure Sig where
  id : Int
  bet_id : Int
  is_party_a : Bool
  is_win : Bool
  sig : EncSig
  outcome : String
deriving DecidableEq

/-- The relational store: both tables plus the id sequences. -/
structure Db where
  bets : List Bet
  sigs : List Sig
  next_bet_id : Int
  next_sig_id : Int
deriving DecidableEq

/-- bets.find(id).first.optional (src/models/bet.rs get_by_id). -/
def Bet.get_by_id (db : Db) (id : Int) : Option Bet :=
  db.bets.find? (fun b => b.id == id)

/-- filter(oracle_event_id = e).load (src/models/bet.rs get_by_oracle_event).
Note: no needs_reply filter appears in the query. -/
def Bet.get_by_oracle_event (db : Db) (e : EventId) : List Bet :=
  db.bets.filter (fun b => b.oracle_event_id == e)

/-- filter(needs_reply = false and win_outcome_event_id is null)
select(oracle_event_id) (src/models/bet.rs get_unfinished_bets).  The
lose_outcome_event_id column is not consulted by the query. -/
def Bet.get_unfinished_bets (db : Db) : List EventId :=
  (db.bets.filter (fun b => !b.needs_reply && b.win_outcome_event_id.isNone)).map
    (fun b => b.oracle_event_id)

/-- update(bets.find(id)).set(needs_reply = false).get_result
(src/models/bet.rs set_needs_reply); get_result fails when no row has the
id. -/
def Bet.set_needs_reply (db : Db) (id : Int) : Except String (Db × Bet) :=
  match db.bets.find? (fun b => b.id == id) with
  | none => .error "NotFound"
  | some b =>
    .ok ({ db with
            bets := db.bets.map (fun x =>
              if x.id == id then { x with needs_reply := false } else x) },
         { b with needs_reply := false })

/-- update(bets.find(id)).set(win_outcome_event_id = v).execute
(src/models/bet.rs set_win_outcome_event_id).  The update is unconditional:
no check of the previously stored value, and execute succeeds regardless of
how many rows matched. -/
def Bet.set_win_outcome_event_id (db : Db) (id : Int) (v : EventId) : Db :=
  { db with
    bets := db.bets.map (fun b =>
      if b.id == id then { b with win_outcome_event_id := some v } else b) }

/-- update(bets.find(id)).set(lose_outcome_event_id = v).execute
(src/models/bet.rs set_lose_outcome_event_id), likewise unconditional. -/
def Bet.set_lose_outcome_event_id (db : Db) (id : Int) (v : EventId) : Db :=
  { db with
    bets := db.bets.map (fun b =>
      if b.id == id then { b with lose_outcome_event_id := some v } else b) }

/-- insert_into(bets).values(NewBet).get_result (src/models/bet.rs create).
NewBet carries user_a := win_a.pubkey and user_b := win_b.pubkey; the
remaining columns (needs_reply true, both outcome ids null) come from the
schema defaults described in the design (a fresh bet is pending). -/
def Bet.create (db : Db) (ann : OracleAnnouncement)
    (win_a lose_a win_b lose_b : UnsignedEvent) (oracle_event_id : EventId) :
    Db × Bet :=
  let bet : Bet :=
    { id := db.next_bet_id
      oracle_announcement := ann
      user_a := win_a.pubkey
      win_a := win_a
      lose_a := lose_a
      user_b := win_b.pubkey
      win_b := win_b
      lose_b := lose_b
      oracle_event_id := oracle_event_id
      needs_reply := true
      win_outcome_event_id := none
      lose_outcome_event_id := none }
  ({ db with
      bets := db.bets ++ [bet]
      next_bet_id := db.next_bet_id + 1 }, bet)

/-- Modelled from the spec: Bet::delete_by_bet_id is called from
reject_bet in src/models/mod.rs but its definition is not among the source
files; section 4.3 of the design says reject deletes the bet row. -/
def Bet.delete_by_bet_id (db : Db) (bet_id : Int) : Db :=
  { db with bets := db.bets.filter (fun b => b.id != bet_id) }

/-- Fresh Sig rows for one insert_into(sigs).values(new_sigs) call,
assigning consecutive ids from the sequence. -/
def mkNewSigs (next_id bet_id : Int) (is_party_a : Bool) :
    List (String × EncSig × Bool) → List Sig
  | [] => []
  | (outcome, s, is_win) :: rest =>
    { id := next_id, bet_id := bet_id, is_party_a := is_party_a,
      is_win := is_win, sig := s, outcome := outcome } ::
      mkNewSigs (next_id + 1) bet_id is_party_a rest

/-- insert_into(sigs).values(new_sigs).get_result (src/models/sig.rs
create_all); get_result fails when the submitted map is empty (no row to
return). -/
def Sig.create_all (db : Db) (bet_id : Int) (is_party_a : Bool)
    (sigs : List (String × EncSig × Bool)) : Except String (Db × Sig) :=
  match (mkNewSigs db.next_sig_id bet_id is_party_a sigs).head? with
  | none => .error "NotFound"
  | some r =>
    .ok ({ db with
            sigs := db.sigs ++ mkNewSigs db.next_sig_id bet_id is_party_a sigs
            next_sig_id := db.next_sig_id + sigs.length }, r)

/-- filter(bet_id).load (src/models/sig.rs get_by_bet_id). -/
def Sig.get_by_bet_id (db : Db) (bet_id : Int) : List Sig :=
  db.sigs.filter (fun s => s.bet_id == bet_id)

/-- delete(sigs.filter(bet_id)).execute (src/models/sig.rs
delete_by_bet_id). -/
def Sig.delete_by_bet_id (db : Db) (bet_id : Int) : Db :=
  { db with sigs := db.sigs.filter (fun s => s.bet_id != bet_id) }

/-- filter(bet_id, outcome, is_party_a).first.optional (src/models/sig.rs
get_by_params). -/
def Sig.get_by_params (db : Db) (bet_id : Int) (outcome : String)
    (is_party_a : Bool) : Option Sig :=
  db.sigs.find? (fun s =>
    s.bet_id == bet_id && s.outcome == outcome && s.is_party_a == is_party_a)

namespace Models

/-- create_bet in src/models/mod.rs: one transaction inserting the Bet row
and the party A Sig rows; any failure rolls the whole transaction back
(an error result leaves the caller with the original Db). -/
def create_bet (db : Db) (ann : OracleAnnouncement)
    (win_a lose_a win_b lose_b : UnsignedEvent) (oracle_event_id : EventId)
    (sigs : List (String × EncSig × Bool)) : Except String (Db × Int) :=
  match Sig.create_all (Bet.create db ann win_a lose_a win_b lose_b oracle_event_id).1
      (Bet.create db ann win_a lose_a win_b lose_b oracle_event_id).2.id true sigs with
  | .error e => .error e
  | .ok p =>
    .ok (p.1, (Bet.create db ann win_a lose_a win_b lose_b oracle_event_id).2.id)

/-- add_sigs in src/models/mod.rs: one transaction inserting the party B
Sig rows and flipping needs_reply, returning the updated bet. -/
def add_sigs (db : Db) (bet_id : Int) (sigs : List (String × EncSig × Bool)) :
    Except String (Db × Bet) :=
  match Sig.create_all db bet_id false sigs with
  | .error e => .error e
  | .ok p => Bet.set_needs_reply p.1 bet_id

/-- reject_bet in src/models/mod.rs: inside one transaction, load the bet;
if present and the requester key equals user_a or user_b, delete its Sig
rows and then the bet row; otherwise do nothing.  Every branch commits
successfully. -/
def reject_bet (db : Db) (bet_id : Int) (key : PubKey) : Db :=
  match Bet.get_by_id db bet_id with
  | none => db
  | some bet =>
    if bet.user_a == key || bet.user_b == key then
      Bet.delete_by_bet_id (Sig.delete_by_bet_id db bet_id) bet_id
    else db

end Models

/-- The cryptographic and codec primitives the route handlers call
(src/routes.rs and src/utils.rs), abstracted as explicit functions:
announcement parsing, x-only and compressed point decoding, the DLC
adaptor point derivation for an outcome label under the announcement
oracle info, and encrypted signature verification. -/
structure RoutesEnv where
  parse_announcement : String → Except String OracleAnnouncement
  point_from_xonly : PubKey → Option Pt
  get_adaptor_point : OracleAnnouncement → String → Except String Pt
  point_from_bytes : Pt → Option Pt
  verify_encrypted_signature : Pt → Pt → Msg → EncSig → Bool

/-- The body of the signature loop shared verbatim by create_bet_impl
(src/routes.rs lines 68 to 96) and add_sigs_impl (lines 171 to 199): for
each submitted (outcome, sig) pair derive the adaptor point, decode the
encryption key, trial verify against the win and the lose message, reject
when neither verifies, and otherwise record the pair tagged with the win
verification result.  (The two inlined Rust copies differ only in the
order the two boolean verifications are evaluated, which has no effect.) -/
def verify_sig_loop (env : RoutesEnv) (ann : OracleAnnouncement)
    (verification_key : Pt) (win_message lose_message : Msg) :
    List (String × EncSig) → Except String (List (String × EncSig × Bool))
  | [] => .ok []
  | (outcome, sig) :: rest =>
    match env.get_adaptor_point ann outcome with
    | .error e => .error e
    | .ok point =>
      match env.point_from_bytes point with
      | none => .error "invalid pubkey"
      | some encryption_key =>
        let is_win :=
          env.verify_encrypted_signature verification_key encryption_key
            win_message sig
        let is_lose :=
          env.verify_encrypted_signature verification_key encryption_key
            lose_message sig
        if !is_win && !is_lose then .error "invalid sig"
        else
          match verify_sig_loop env ann verification_key win_message
              lose_message rest with
          | .error e => .error e
          | .ok acc => .ok ((outcome, sig, is_win) :: acc)

/-- The create-bet request body (src/routes.rs CreateBetRequest); the sigs
map is modelled as an association list with distinct keys. -/
structure CreateBetRequest where
  oracle_announcement : String
  oracle_event_id : EventId
  win_event : UnsignedEvent
  lose_event : UnsignedEvent
  counterparty_win_event : UnsignedEvent
  counterparty_lose_event : UnsignedEvent
  sigs : List (String × EncSig)

/-- create_bet_impl (src/routes.rs lines 38 to 111): parse the
announcement, require an enumerated descriptor, require as many sigs as
outcomes, decode the verification key from the submitted win event author,
run the verification loop with the win and lose message ids, then persist
through Models.create_bet.  An error anywhere leaves the store untouched. -/
def create_bet_impl (env : RoutesEnv) (db : Db) (request : CreateBetRequest) :
    Except String (Db × Int) :=
  match env.parse_announcement request.oracle_announcement with
  | .error e => .error e
  | .ok oracle_announcement =>
    match oracle_announcement.event_descriptor with
    | .digitDecompositionEvent => .error "Only enum events supported"
    | .enumEvent all_outcomes =>
      if request.sigs.length != all_outcomes.length then
        .error "Incorrect number of sigs"
      else
        match env.point_from_xonly request.win_event.pubkey with
        | none => .error "invalid pubkey"
        | some verification_key =>
          let win_message := request.win_event.id
          let lose_message := request.lose_event.id
          match verify_sig_loop env oracle_announcement verification_key
              win_message lose_message request.sigs with
          | .error e => .error e
          | .ok sigs =>
            Models.create_bet db oracle_announcement request.win_event
              request.lose_event request.counterparty_win_event
              request.counterparty_lose_event request.oracle_event_id sigs

/-- The add-sigs request body (src/routes.rs AddSigsRequest). -/
structure AddSigsRequest where
  id : Int
  sigs : List (String × EncSig)

/-- add_sigs_impl (src/routes.rs lines 132 to 208): load the bet (not
found fails), refuse when it no longer needs a reply, require an
enumerated descriptor and a matching sig count, decode the verification
key from the stored user_b, verify against the stored win_b and lose_b
message ids, then persist through Models.add_sigs.  The Rust function
finally pushes the bet oracle_event_id into the watch channel and returns
unit; the updated store and bet are returned here so that effect is
visible. -/
def add_sigs_impl (env : RoutesEnv) (db : Db) (request : AddSigsRequest) :
    Except String (Db × Bet) :=
  match Bet.get_by_id db request.id with
  | none => .error "bet not found"
  | some bet =>
    if !bet.needs_reply then .error "bet already setup"
    else
      match bet.oracle_announcement.event_descriptor with
      | .digitDecompositionEvent => .error "Only enum events supported"
      | .enumEvent all_outcomes =>
        if request.sigs.length != all_outcomes.length then
          .error "Incorrect number of sigs"
        else
          match env.point_from_xonly bet.user_b with
          | none => .error "invalid pubkey"
          | some verification_key =>
            let win_message := bet.win_b.id
            let lose_message := bet.lose_b.id
            match verify_sig_loop env bet.oracle_announcement verification_key
                win_message lose_message request.sigs with
            | .error e => .error e
            | .ok sigs => Models.add_sigs db request.id sigs

/-- The primitives the listener calls (src/listener.rs), abstracted:
decomposing an oracle Schnorr signature into its s value, building a
nonzero scalar from it, decrypting an adaptor signature, decoding the
resulting plain signature, attaching it to an unsigned event, and
publishing the signed event to the relay (send_event returns the relay
acknowledgement id and may fail). -/
structure ListenerEnv where
  schnorrsig_decompose : Nat → Except String Nat
  scalar_from_slice : Nat → Option Nat
  non_zero : Nat → Option Nat
  decrypt_signature : Nat → EncSig → Nat
  signature_from_slice : Nat → Except String Nat
  add_signature : UnsignedEvent → Nat → Except String SignedEvent
  send_event : SignedEvent → Except String EventId

/-- One arm of the two structurally identical match blocks of handle_bet
(src/listener.rs lines 128 to 159 for party A, 161 to 192 for party B):
decompose the first attestation signature, build the nonzero scalar,
decrypt the stored adaptor signature, pick the unsigned event selected by
the party and the is_win flag of the Sig row, attach the decrypted
signature, record the signed event id into the win or lose outcome column,
and publish.  Returns the store as mutated so far, the published event
ids, and the error that aborted the block, if any — the Rust code applies
its database writes directly on the connection, so a write that precedes a
later failure persists. -/
def processSide (env : ListenerEnv) (att : OracleAttestation) (bet : Bet)
    (is_party_a : Bool) (sig : Sig) (db : Db) :
    Db × List EventId × Option String :=
  match att.signatures.head? with
  | none => (db, [], some "index out of bounds")
  | some attSig =>
    match env.schnorrsig_decompose attSig with
    | .error e => (db, [], some e)
    | .ok s_value =>
      match env.scalar_from_slice s_value with
      | none => (db, [], some "invalid scalar")
      | some sc =>
        match env.non_zero sc with
        | none => (db, [], some "zero scalar")
        | some scalar =>
          let valid_sig := env.decrypt_signature scalar sig.sig
          let unsigned :=
            if sig.is_win then (if is_party_a then bet.win_a else bet.win_b)
            else (if is_party_a then bet.lose_a else bet.lose_b)
          match env.signature_from_slice valid_sig with
          | .error e => (db, [], some e)
          | .ok signature =>
            match env.add_signature unsigned signature with
            | .error e => (db, [], some e)
            | .ok signed_event =>
              let db :=
                if sig.is_win then
                  Bet.set_win_outcome_event_id db bet.id signed_event.id
                else
                  Bet.set_lose_outcome_event_id db bet.id signed_event.id
              match env.send_event signed_event with
              | .error e => (db, [], some e)
              | .ok _ => (db, [signed_event.id], none)

/-- handle_bet (src/listener.rs lines 111 to 195): take the first attested
outcome, look up the party A and party B Sig rows for it; when neither
exists write the all zero sentinel to both outcome columns and return
successfully without publishing; otherwise run the party A block — whose
failure returns early through the question mark operator, skipping the
party B block — and then the party B block. -/
def handle_bet (env : ListenerEnv) (att : OracleAttestation) (bet : Bet)
    (db : Db) : Db × List EventId × Option String :=
  match att.outcomes.head? with
  | none => (db, [], some "No outcomes")
  | some outcome =>
    let sig_a := Sig.get_by_params db bet.id outcome true
    let sig_b := Sig.get_by_params db bet.id outcome false
    if sig_a.isNone && sig_b.isNone then
      let db := Bet.set_win_outcome_event_id db bet.id EventId.allZeros
      let db := Bet.set_lose_outcome_event_id db bet.id EventId.allZeros
      (db, [], none)
    else
      let resA :=
        match sig_a with
        | none => (db, ([] : List EventId), (none : Option String))
        | some sig => processSide env att bet true sig db
      match resA with
      | (db1, pubs1, some e) => (db1, pubs1, some e)
      | (db1, pubs1, none) =>
        match sig_b with
        | none => (db1, pubs1, none)
        | some sig =>
          match processSide env att bet false sig db1 with
          | (db2, pubs2, err) => (db2, pubs1 ++ pubs2, err)

/-- The loop of handle_event (src/listener.rs lines 102 to 106): each bet
matching the attestation is handled in turn; an error from handle_bet is
logged and the loop continues with the next bet on the store as mutated so
far. -/
def handle_bets (env : ListenerEnv) (att : OracleAttestation) :
    List Bet → Db → Db × List EventId
  | [], db => (db, [])
  | bet :: rest, db =>
    match handle_bet env att bet db with
    | (db1, pubs1, _err) =>
      match handle_bets env att rest db1 with
      | (db2, pubs2) => (db2, pubs1 ++ pubs2)

/-- handle_event (src/listener.rs lines 87 to 109), after the nostr event
plumbing (e tag extraction and attestation parsing) has succeeded: load
every bet whose oracle_event_id equals the referenced id — active or not —
and run the per bet loop. -/
def handle_event (env : ListenerEnv) (e_tag : EventId)
    (att : OracleAttestation) (db : Db) : Db × List EventId :=
  handle_bets env att (Bet.get_by_oracle_event db e_tag) db

/-- The startup wiring in src/main.rs lines 57 to 60: the watch channel
that carries the listener subscription filter is seeded with
Bet.get_unfinished_bets. -/
def initial_subscription (db : Db) : List EventId :=
  Bet.get_unfinished_bets db

/-! Concrete instances used to evaluate the definitions on small inputs. -/

/-- A single outcome enumerated announcement. -/
def annH : OracleAnnouncement :=
  { oracle_public_key := 10
    oracle_nonces := [11]
    event_descriptor := .enumEvent ["H"] }

/-- A two outcome enumerated announcement. -/
def annHT : OracleAnnouncement :=
  { oracle_public_key := 10
    oracle_nonces := [11]
    event_descriptor := .enumEvent ["H", "T"] }

/-- A routes environment whose primitives all succeed and whose encrypted
signature verification accepts every candidate, so that a submitted
signature verifies against the win message and the lose message alike. -/
def envOk : RoutesEnv :=
  { parse_announcement := fun _ => .ok annH
    point_from_xonly := fun k => some k
    get_adaptor_point := fun _ _ => .ok 1
    point_from_bytes := fun p => some p
    verify_encrypted_signature := fun _ _ _ _ => true }

/-- Like envOk but parsing to the two outcome announcement. -/
def envHT : RoutesEnv :=
  { envOk with parse_announcement := fun _ => .ok annHT }

/-- The empty store. -/
def dbEmpty : Db :=
  { bets := [], sigs := [], next_bet_id := 1, next_sig_id := 1 }

/-- A create request for the single outcome announcement with one
submitted signature. -/
def reqC1 : CreateBetRequest :=
  { oracle_announcement := "ann"
    oracle_event_id := 9
    win_event := { pubkey := 1, id := 100 }
    lose_event := { pubkey := 1, id := 101 }
    counterparty_win_event := { pubkey := 2, id := 200 }
    counterparty_lose_event := { pubkey := 2, id := 201 }
    sigs := [("H", 42)] }

/-- The bet row that create_bet_impl envOk dbEmpty reqC1 inserts. -/
def betC1r : Bet :=
  { id := 1
    oracle_announcement := annH
    user_a := 1
    win_a := { pubkey := 1, id := 100 }
    lose_a := { pubkey := 1, id := 101 }
    user_b := 2
    win_b := { pubkey := 2, id := 200 }
    lose_b := { pubkey := 2, id := 201 }
    oracle_event_id := 9
    needs_reply := true
    win_outcome_event_id := none
    lose_outcome_event_id := none }

/-- The store create_bet_impl envOk dbEmpty reqC1 produces. -/
def dbC1r : Db :=
  { bets := [betC1r]
    sigs := [{ id := 1, bet_id := 1, is_party_a := true, is_win := true,
               sig := 42, outcome := "H" }]
    next_bet_id := 2
    next_sig_id := 2 }

/-- A listener environment whose primitives all succeed; attaching a
signature to an unsigned event yields a signed event with the same id. -/
def envOkL : ListenerEnv :=
  { schnorrsig_decompose := fun _ => .ok 3
    scalar_from_slice := fun n => some n
    non_zero := fun n => some n
    decrypt_signature := fun _ s => s
    signature_from_slice := fun n => .ok n
    add_signature := fun u _ => .ok { id := u.id }
    send_event := fun e => .ok e.id }

/-- A listener environment that fails exactly when attaching a signature
to the event with id 100 (the win event of party A below) and succeeds on
every other event. -/
def envC2 : ListenerEnv :=
  { envOkL with
    add_signature := fun u _ =>
      if u.id == 100 then .error "invalid signature" else .ok { id := u.id } }

/-- An active bet whose party A events have ids 100 and 101 and whose
party B events have ids 200 and 201. -/
def betC2 : Bet :=
  { id := 1
    oracle_announcement := annH
    user_a := 1
    win_a := { pubkey := 1, id := 100 }
    lose_a := { pubkey := 1, id := 101 }
    user_b := 2
    win_b := { pubkey := 2, id := 200 }
    lose_b := { pubkey := 2, id := 201 }
    oracle_event_id := 9
    needs_reply := false
    win_outcome_event_id := none
    lose_outcome_event_id := none }

/-- Party A signature row for outcome H on betC2. -/
def sigA2 : Sig :=
  { id := 1, bet_id := 1, is_party_a := true, is_win := true,
    sig := 42, outcome := "H" }

/-- Party B signature row for outcome H on betC2. -/
def sigB2 : Sig :=
  { id := 2, bet_id := 1, is_party_a := false, is_win := true,
    sig := 43, outcome := "H" }

/-- Store holding betC2 with both party rows for outcome H. -/
def dbC2 : Db :=
  { bets := [betC2], sigs := [sigA2, sigB2], next_bet_id := 2, next_sig_id := 3 }

/-- An attestation for outcome H. -/
def attH : OracleAttestation :=
  { outcomes := ["H"], signatures := [7] }

/-- A settled bet: both outcome event ids hold the value 5. -/
def betC3 : Bet :=
  { betC2 with
    win_outcome_event_id := some 5
    lose_outcome_event_id := some 5 }

/-- Store holding the settled betC3. -/
def dbC3 : Db :=
  { bets := [betC3], sigs := [], next_bet_id := 2, next_sig_id := 1 }

/-- A pending bet (needs_reply still true). -/
def betC4 : Bet :=
  { betC2 with needs_reply := true }

/-- Store holding the pending betC4 together with the party A signature
row for outcome H, exactly the state left by a create call. -/
def dbC4 : Db :=
  { bets := [betC4], sigs := [sigA2], next_bet_id := 2, next_sig_id := 2 }

/-- Store holding the active betC2 and no signature rows at all. -/
def dbC5 : Db :=
  { bets := [betC2], sigs := [], next_bet_id := 2, next_sig_id := 1 }

/-- A create request carrying one signature against the two outcome
announcement. -/
def reqC6 : CreateBetRequest :=
  { reqC1 with sigs := [("H", 42)] }

/-- A pending bet whose announcement declares two outcomes. -/
def betC6 : Bet :=
  { betC4 with oracle_announcement := annHT }

/-- Store holding betC6. -/
def dbC6 : Db :=
  { bets := [betC6], sigs := [sigA2], next_bet_id := 2, next_sig_id := 2 }

/-- An add-sigs request carrying no signatures at all. -/
def reqC6b : AddSigsRequest :=
  { id := 1, sigs := [] }

/-- A pending bet that already carries outcome event ids (the state the
attestation path leaves behind when it matches a bet that still needs a
reply). -/
def betC7 : Bet :=
  { betC4 with
    win_outcome_event_id := some 7
    lose_outcome_event_id := some 8 }

/-- Store holding betC7. -/
def dbC7 : Db :=
  { bets := [betC7], sigs := [], next_bet_id := 2, next_sig_id := 1 }

/-- The counterparty reply for betC7. -/
def reqC7 : AddSigsRequest :=
  { id := 1, sigs := [("H", 43)] }

/-- betC7 after the reply flipped needs_reply. -/
def betC7r : Bet :=
  { betC7 with needs_reply := false }

/-- The party B signature row the reply inserts. -/
def sigRowC7 : Sig :=
  { id := 1, bet_id := 1, is_party_a := false, is_win := true,
    sig := 43, outcome := "H" }

/-- The store Models.add_sigs dbC7 1 leaves behind. -/
def dbC7r : Db :=
  { bets := [betC7r], sigs := [sigRowC7], next_bet_id := 2, next_sig_id := 2 }

/-- An already replied bet. -/
def betC7done : Bet := betC2

/-- Store holding the already replied betC7done. -/
def dbC7done : Db :=
  { bets := [betC7done], sigs := [], next_bet_id := 2, next_sig_id := 1 }

/-- An active bet whose win outcome id is set while its lose outcome id is
still null (the state left when only the winning side of a resolution
completed). -/
def bet8 : Bet :=
  { betC2 with win_outcome_event_id := some 5 }

/-- Store holding bet8. -/
def db8 : Db :=
  { bets := [bet8], sigs := [], next_bet_id := 2, next_sig_id := 1 }

/-! Helper lemmas. -/

/-- Mapping a function that fixes every element of a list is the
identity. -/
theorem list_map_eq_self {α : Type} (l : List α) (f : α → α)
    (h : ∀ b ∈ l, f b = b) : l.map f = l := by
  induction l with
  | nil => rfl
  | cons a t ih =>
    simp only [List.map_cons, h a (List.mem_cons_self a t)]
    rw [ih (fun b hb => h b (List.mem_cons_of_mem a hb))]

/-! Claim C1. -/

/-- Claim C1 counterexample: under an environment in which the submitted
encrypted signature verifies as a valid adaptor signature against both the
win message and the lose message, create_bet_impl does not reject the
request: it persists the bet and classifies the signature as Win
(is_win = true). -/
theorem c1_counterexample :
    envOk.verify_encrypted_signature 1 1 100 42 = true ∧
    envOk.verify_encrypted_signature 1 1 101 42 = true ∧
    create_bet_impl envOk dbEmpty reqC1 = .ok (dbC1r, 1) ∧
    dbC1r.sigs.map (fun s => s.is_win) = [true] := by
  refine ⟨rfl, rfl, ?_, rfl⟩
  rfl

/-- Claim C1 as amended: a signature that verifies against both the win
and the lose message is accepted by the classification loop and recorded
as Win (is_win = true); only a signature that verifies against neither
message is rejected. -/
theorem c1_both_valid_classified_win
    (env : RoutesEnv) (ann : OracleAnnouncement) (vk wm lm : Nat)
    (o : String) (s : EncSig) (p ek : Pt) (rest : List (String × EncSig))
    (h1 : env.get_adaptor_point ann o = .ok p)
    (h2 : env.point_from_bytes p = some ek)
    (hw : env.verify_encrypted_signature vk ek wm s = true)
    (hl : env.verify_encrypted_signature vk ek lm s = true) :
    verify_sig_loop env ann vk wm lm ((o, s) :: rest) =
      match verify_sig_loop env ann vk wm lm rest with
      | .error e => .error e
      | .ok acc => .ok ((o, s, true) :: acc) := by
  simp [verify_sig_loop, h1, h2, hw, hl]

/-- Claim C1 witness: the amended claim evaluated on a concrete doubly
valid signature. -/
theorem c1_witness :
    verify_sig_loop envOk annH 1 100 101 [("H", 42)] = .ok [("H", 42, true)] := by
  have h := c1_both_valid_classified_win envOk annH 1 100 101 "H" 42 1 1 []
    rfl rfl rfl rfl
  simpa [verify_sig_loop] using h

/-! Claim C3. -/

/-- Claim C3 counterexample: on a bet already settled with outcome id 5,
writing the different id 7 does not fail with AlreadySettled: the setter
succeeds and the stored id becomes 7. -/
theorem c3_counterexample :
    dbC3.bets.map (fun b => b.win_outcome_event_id) = [some 5] ∧
    (Bet.set_win_outcome_event_id dbC3 1 7).bets.map
      (fun b => b.win_outcome_event_id) = [some 7] :=
  ⟨rfl, rfl⟩

/-- Claim C3 as amended: the outcome id setters overwrite
unconditionally.  Writing the same value twice equals writing it once, and
writing a value already stored leaves the store unchanged, but writing a
different value after settlement succeeds and replaces the stored id; no
AlreadySettled error exists. -/
theorem c3_set_outcome_overwrites (db : Db) (id : Int) (v : EventId) :
    Bet.set_win_outcome_event_id (Bet.set_win_outcome_event_id db id v) id v =
      Bet.set_win_outcome_event_id db id v ∧
    Bet.set_lose_outcome_event_id (Bet.set_lose_outcome_event_id db id v) id v =
      Bet.set_lose_outcome_event_id db id v ∧
    ((∀ b ∈ db.bets, b.id = id → b.win_outcome_event_id = some v) →
      Bet.set_win_outcome_event_id db id v = db) ∧
    ((∀ b ∈ db.bets, b.id = id → b.lose_outcome_event_id = some v) →
      Bet.set_lose_outcome_event_id db id v = db) ∧
    (∀ b ∈ (Bet.set_win_outcome_event_id db id v).bets, b.id = id →
      b.win_outcome_event_id = some v) ∧
    (∀ b ∈ (Bet.set_lose_outcome_event_id db id v).bets, b.id = id →
      b.lose_outcome_event_id = some v) := by
  refine ⟨?_, ?_, ?_, ?_, ?_, ?_⟩
  · simp only [Bet.set_win_outcome_event_id, List.map_map]
    congr 1
    apply List.map_congr_left
    intro b _
    by_cases h : b.id == id <;> simp [Function.comp, h]
  · simp only [Bet.set_lose_outcome_event_id, List.map_map]
    congr 1
    apply List.map_congr_left
    intro b _
    by_cases h : b.id == id <;> simp [Function.comp, h]
  · intro h
    have : db.bets.map (fun b =>
        if b.id == id then { b with win_outcome_event_id := some v } else b) =
        db.bets := by
      apply list_map_eq_self
      intro b hb
      by_cases hid : b.id == id
      · have := h b hb (by simpa using hid)
        simp [hid, ← this]
      · simp [hid]
    simp only [Bet.set_win_outcome_event_id]
    rw [this]
  · intro h
    have : db.bets.map (fun b =>
        if b.id == id then { b with lose_outcome_event_id := some v } else b) =
        db.bets := by
      apply list_map_eq_self
      intro b hb
      by_cases hid : b.id == id
      · have := h b hb (by simpa using hid)
        simp [hid, ← this]
      · simp [hid]
    simp only [Bet.set_lose_outcome_event_id]
    rw [this]
  · intro b hb hid
    simp only [Bet.set_win_outcome_event_id, List.mem_map] at hb
    obtain ⟨a, _, rfl⟩ := hb
    by_cases h : a.id == id <;> simp_all
  · intro b hb hid
    simp only [Bet.set_lose_outcome_event_id, List.mem_map] at hb
    obtain ⟨a, _, rfl⟩ := hb
    by_cases h : a.id == id <;> simp_all

/-- Claim C3 witness: the amended claim evaluated on the concrete settled
store: rewriting the already stored value 5 leaves the store unchanged,
and after writing 7 every row with the bet id holds 7. -/
theorem c3_witness :
    Bet.set_win_outcome_event_id dbC3 1 5 = dbC3 ∧
    ∀ b ∈ (Bet.set_win_outcome_event_id dbC3 1 7).bets, b.id = 1 →
      b.win_outcome_event_id = some 7 := by
  constructor
  · exact (c3_set_outcome_overwrites dbC3 1 5).2.2.1 (by decide)
  · exact (c3_set_outcome_overwrites dbC3 1 7).2.2.2.2.1

/-! Claim C4. -/

/-- Claim C4 counterexample: a bet with needs_reply = true is selected by
attestation matching, and the attestation path writes an outcome event id
to it and publishes its payout message. -/
theorem c4_counterexample :
    betC4.needs_reply = true ∧
    Bet.get_by_oracle_event dbC4 9 = [betC4] ∧
    handle_event envOkL 9 attH dbC4 =
      (Bet.set_win_outcome_event_id dbC4 1 100, [100]) ∧
    (Bet.set_win_outcome_event_id dbC4 1 100).bets.map
      (fun b => (b.needs_reply, b.win_outcome_event_id)) = [(true, some 100)] := by
  refine ⟨rfl, rfl, ?_, rfl⟩
  rfl

/-- Claim C4 as amended: attestation matching selects every bet whose
oracle_event_id equals the referenced id, with no needs_reply filter, so
bets still awaiting a reply are included. -/
theorem c4_pending_bets_not_excluded (db : Db) (e : EventId) (b : Bet)
    (hmem : b ∈ db.bets) (hid : b.oracle_event_id = e)
    (_hpending : b.needs_reply = true) :
    b ∈ Bet.get_by_oracle_event db e := by
  simp [Bet.get_by_oracle_event, List.mem_filter, hmem, hid]

/-- Claim C4 witness: the amended claim evaluated on the concrete pending
bet. -/
theorem c4_witness : betC4 ∈ Bet.get_by_oracle_event dbC4 9 :=
  c4_pending_bets_not_excluded dbC4 9 betC4 (by decide) (by decide) (by decide)

/-! Claim C8. -/

/-- Claim C8 counterexample: a replied bet whose win outcome id is set
while its lose outcome id is still null is missing a win/lose outcome, yet
its oracle_event_id does not seed the initial subscription. -/
theorem c8_counterexample :
    bet8 ∈ db8.bets ∧
    bet8.needs_reply = false ∧
    bet8.win_outcome_event_id = some 5 ∧
    bet8.lose_outcome_event_id = none ∧
    bet8.oracle_event_id = 9 ∧
    initial_subscription db8 = [] :=
  ⟨by decide, rfl, rfl, rfl, rfl, rfl⟩

/-- Claim C8 as amended: the set seeding the listener initial subscription
holds the oracle_event_ids of exactly the bets with needs_reply = false
and a null win_outcome_event_id; the lose outcome id is not consulted. -/
theorem c8_initial_subscription_characterization (db : Db) (e : EventId) :
    e ∈ initial_subscription db ↔
      ∃ b, b ∈ db.bets ∧ b.needs_reply = false ∧
        b.win_outcome_event_id = none ∧ b.oracle_event_id = e := by
  simp only [initial_subscription, Bet.get_unfinished_bets, List.mem_map,
    List.mem_filter, Bool.and_eq_true, Bool.not_eq_true',
    Option.isNone_iff_eq_none]
  constructor
  · rintro ⟨b, ⟨hb, hnr, hwin⟩, he⟩
    exact ⟨b, hb, hnr, hwin, he⟩
  · rintro ⟨b, hb, hnr, hwin, he⟩
    exact ⟨b, ⟨hb, hnr, hwin⟩, he⟩

/-- Claim C8 witness: the amended characterization evaluated at a
concrete store and event id. -/
theorem c8_witness :
    (9 : EventId) ∈ initial_subscription dbC5 ↔
      ∃ b, b ∈ dbC5.bets ∧ b.needs_reply = false ∧
        b.win_outcome_event_id = none ∧ b.oracle_event_id = 9 :=
  c8_initial_subscription_characterization dbC5 9

/-! Claim C2. -/

/-- Claim C2 counterexample: for one bet holding both party rows for the
attested outcome, an error while processing the party A signature (here
attaching the decrypted signature to the party A win event fails) aborts
handle_bet with an error: the party B outcome event id is not recorded and
nothing is published, even though the party B side alone would have
completed and published. -/
theorem c2_counterexample :
    Sig.get_by_params dbC2 1 "H" true = some sigA2 ∧
    Sig.get_by_params dbC2 1 "H" false = some sigB2 ∧
    handle_bet envC2 attH betC2 dbC2 = (dbC2, [], some "invalid signature") ∧
    processSide envC2 attH betC2 false sigB2 dbC2 =
      (Bet.set_win_outcome_event_id dbC2 1 200, [200], none) := by
  refine ⟨rfl, rfl, ?_, ?_⟩ <;> rfl

/-- Claim C2 as amended: within one bet an error on the party A side
aborts handle_bet before the party B side runs; independence holds at bet
granularity only: the handle_event loop applies handle_bet to each matched
bet in turn on the store mutated so far, and an error from one bet never
prevents the later bets from being processed. -/
theorem c2_bets_processed_independently (env : ListenerEnv)
    (att : OracleAttestation) (l1 l2 : List Bet) (db : Db) :
    handle_bets env att (l1 ++ l2) db =
      ((handle_bets env att l2 (handle_bets env att l1 db).1).1,
        (handle_bets env att l1 db).2 ++
          (handle_bets env att l2 (handle_bets env att l1 db).1).2) := by
  induction l1 generalizing db with
  | nil => simp [handle_bets]
  | cons b rest ih =>
    simp only [List.cons_append, handle_bets, List.append_eq]
    rw [ih]
    simp [List.append_assoc]

/-- Claim C2 witness: the amended claim evaluated on concrete lists of
bets. -/
theorem c2_witness :
    handle_bets envC2 attH ([betC2] ++ [betC2]) dbC2 =
      ((handle_bets envC2 attH [betC2]
          (handle_bets envC2 attH [betC2] dbC2).1).1,
        (handle_bets envC2 attH [betC2] dbC2).2 ++
          (handle_bets envC2 attH [betC2]
            (handle_bets envC2 attH [betC2] dbC2).1).2) :=
  c2_bets_processed_independently envC2 attH [betC2] [betC2] dbC2

/-! Claim C5. -/

/-- Claim C5: when neither party holds a Sig row for the attested outcome,
handle_bet writes the all zero sentinel to both outcome id columns of the
bet, publishes nothing and returns without error. -/
theorem c5_no_sigs_sentinel (env : ListenerEnv) (att : OracleAttestation)
    (bet : Bet) (db : Db) (o : String) (rest : List String)
    (hout : att.outcomes = o :: rest)
    (ha : Sig.get_by_params db bet.id o true = none)
    (hb : Sig.get_by_params db bet.id o false = none) :
    handle_bet env att bet db =
      (Bet.set_lose_outcome_event_id
          (Bet.set_win_outcome_event_id db bet.id EventId.allZeros)
          bet.id EventId.allZeros,
        [], none) ∧
    ∀ b ∈ (handle_bet env att bet db).1.bets, b.id = bet.id →
      b.win_outcome_event_id = some EventId.allZeros ∧
      b.lose_outcome_event_id = some EventId.allZeros := by
  have hmain : handle_bet env att bet db =
      (Bet.set_lose_outcome_event_id
          (Bet.set_win_outcome_event_id db bet.id EventId.allZeros)
          bet.id EventId.allZeros,
        [], none) := by
    simp [handle_bet, hout, ha, hb]
  refine ⟨hmain, ?_⟩
  rw [hmain]
  intro b hbmem hid
  simp only [Bet.set_lose_outcome_event_id, Bet.set_win_outcome_event_id,
    List.map_map, List.mem_map] at hbmem
  obtain ⟨a, _, rfl⟩ := hbmem
  by_cases h : a.id == bet.id <;> simp_all [Function.comp]

/-- Claim C5 witness: the claim evaluated on a concrete bet with no
signature rows. -/
theorem c5_witness :
    handle_bet envOkL attH betC2 dbC5 =
      (Bet.set_lose_outcome_event_id
          (Bet.set_win_outcome_event_id dbC5 1 EventId.allZeros)
          1 EventId.allZeros,
        [], none) := by
  have h := c5_no_sigs_sentinel envOkL attH betC2 dbC5 "H" [] rfl rfl rfl
  simpa using h.1

/-! Claim C6. -/

/-- Claim C6: a create or add-sigs request whose signature count differs
from the announcement declared outcome count is rejected with the count
mismatch error; the rejection happens for every environment (hence before
any adaptor point computation or signature verification) and returns no
store, so nothing is persisted. -/
theorem c6_count_mismatch_rejected
    (env : RoutesEnv) (db : Db) (req : CreateBetRequest)
    (ann : OracleAnnouncement) (outcomes : List String)
    (env2 : RoutesEnv) (db2 : Db) (req2 : AddSigsRequest)
    (bet : Bet) (outcomes2 : List String) :
    (env.parse_announcement req.oracle_announcement = .ok ann →
      ann.event_descriptor = .enumEvent outcomes →
      req.sigs.length ≠ outcomes.length →
      create_bet_impl env db req = .error "Incorrect number of sigs") ∧
    (Bet.get_by_id db2 req2.id = some bet →
      bet.needs_reply = true →
      bet.oracle_announcement.event_descriptor = .enumEvent outcomes2 →
      req2.sigs.length ≠ outcomes2.length →
      add_sigs_impl env2 db2 req2 = .error "Incorrect number of sigs") := by
  constructor
  · intro h1 h2 h3
    simp [create_bet_impl, h1, h2, h3]
  · intro h1 h2 h3 h4
    simp [add_sigs_impl, h1, h2, h3, h4]

/-- Claim C6 witness: the claim evaluated on a two outcome announcement
with one submitted signature at creation, and with zero submitted
signatures at reply time. -/
theorem c6_witness :
    create_bet_impl envHT dbEmpty reqC6 = .error "Incorrect number of sigs" ∧
    add_sigs_impl envHT dbC6 reqC6b = .error "Incorrect number of sigs" := by
  have h := c6_count_mismatch_rejected envHT dbEmpty reqC6 annHT ["H", "T"]
    envHT dbC6 reqC6b betC6 ["H", "T"]
  exact ⟨h.1 rfl rfl (by decide), h.2 (by decide) rfl rfl (by decide)⟩

/-! Claim C9. -/

/-- Claim C9: reject deletes the bet row and all of its Sig rows exactly
when the requester key equals user_a or user_b of the stored bet; for any
other requester, and when no bet with the id exists, it completes as a
no-op leaving the store unchanged.  The id sequences are untouched in
every case. -/
theorem c9_reject_bet (db : Db) (bet_id : Int) (key : PubKey) :
    match Bet.get_by_id db bet_id with
    | some bet =>
      if bet.user_a == key || bet.user_b == key then
        (Models.reject_bet db bet_id key).bets =
            db.bets.filter (fun b => b.id != bet_id) ∧
        (Models.reject_bet db bet_id key).sigs =
            db.sigs.filter (fun s => s.bet_id != bet_id) ∧
        (Models.reject_bet db bet_id key).next_bet_id = db.next_bet_id ∧
        (Models.reject_bet db bet_id key).next_sig_id = db.next_sig_id
      else Models.reject_bet db bet_id key = db
    | none => Models.reject_bet db bet_id key = db := by
  unfold Models.reject_bet
  cases h : Bet.get_by_id db bet_id with
  | none => simp [h]
  | some bet =>
    simp only [h]
    by_cases hk : (bet.user_a == key || bet.user_b == key) = true
    · simp [hk, Bet.delete_by_bet_id, Sig.delete_by_bet_id]
    · simp [hk]

/-- Claim C9 witness: the claim evaluated on a concrete store in which
the requester key 1 equals user_a of the stored bet, so the bet row and
both Sig rows are deleted. -/
theorem c9_witness :
    (Models.reject_bet dbC2 1 1).bets =
        dbC2.bets.filter (fun b => b.id != 1) ∧
    (Models.reject_bet dbC2 1 1).sigs =
        dbC2.sigs.filter (fun s => s.bet_id != 1) ∧
    (Models.reject_bet dbC2 1 1).next_bet_id = dbC2.next_bet_id ∧
    (Models.reject_bet dbC2 1 1).next_sig_id = dbC2.next_sig_id :=
  c9_reject_bet dbC2 1 1

/-! Claim C7. -/

/-- Every submitted triple yields a freshly inserted Sig row with the
expected party, outcome, payload and win flag. -/
theorem mkNewSigs_mem (next_id bet_id : Int) (pa : Bool)
    (l : List (String × EncSig × Bool)) (x : String × EncSig × Bool)
    (hx : x ∈ l) :
    ∃ r ∈ mkNewSigs next_id bet_id pa l,
      r.bet_id = bet_id ∧ r.is_party_a = pa ∧ r.outcome = x.1 ∧
      r.sig = x.2.1 ∧ r.is_win = x.2.2 := by
  induction l generalizing next_id with
  | nil => cases hx
  | cons a t ih =>
    rcases List.mem_cons.mp hx with rfl | hx2
    · refine ⟨Sig.mk next_id bet_id pa x.2.2 x.2.1 x.1, ?_, rfl, rfl, rfl, rfl, rfl⟩
      simp [mkNewSigs]
    · obtain ⟨r, hr, hprops⟩ := ih (next_id + 1) hx2
      exact ⟨r, by simp [mkNewSigs, hr], hprops⟩

/-- Claim C7 counterexample: on a bet that still needs a reply but whose
outcome event ids are already set (the state the attestation path leaves
on a pending bet), add_sigs_impl succeeds and the returned now-active bet
carries non null outcome event ids, contradicting the claim that the
returned bet always has both outcome ids null. -/
theorem c7_counterexample :
    (match add_sigs_impl envOk dbC7 reqC7 with
      | .ok (_, b) =>
        some (b.needs_reply, b.win_outcome_event_id, b.lose_outcome_event_id)
      | .error _ => none) = some (false, some 7, some 8) := by
  rfl

/-- Claim C7 as amended: add_reply fails with the not-found error when no
bet with the id exists and with the already-setup error when needs_reply
is already false; on success the transaction inserts the party B Sig rows
and flips needs_reply to false, returning the now-active bet whose outcome
event ids are exactly those already stored (hence both null whenever the
reply follows an untouched create). -/
theorem c7_add_reply (env : RoutesEnv) (db : Db) (req : AddSigsRequest)
    (bet_id : Int) (sigs : List (String × EncSig × Bool))
    (db2 : Db) (bet2 : Bet) :
    (Bet.get_by_id db req.id = none →
      add_sigs_impl env db req = .error "bet not found") ∧
    (∀ bet, Bet.get_by_id db req.id = some bet → bet.needs_reply = false →
      add_sigs_impl env db req = .error "bet already setup") ∧
    (Models.add_sigs db bet_id sigs = .ok (db2, bet2) →
      bet2.needs_reply = false ∧
      (∀ b0, Bet.get_by_id db bet_id = some b0 →
        bet2.win_outcome_event_id = b0.win_outcome_event_id ∧
        bet2.lose_outcome_event_id = b0.lose_outcome_event_id) ∧
      ∀ x ∈ sigs, ∃ r ∈ db2.sigs, r.bet_id = bet_id ∧ r.is_party_a = false ∧
        r.outcome = x.1 ∧ r.sig = x.2.1 ∧ r.is_win = x.2.2) := by
  refine ⟨?_, ?_, ?_⟩
  · intro h
    simp [add_sigs_impl, h]
  · intro bet h1 h2
    simp [add_sigs_impl, h1, h2]
  · intro h
    unfold Models.add_sigs at h
    cases hca : Sig.create_all db bet_id false sigs with
    | error e => rw [hca] at h; exact Except.noConfusion h
    | ok p =>
      rw [hca] at h
      have h2 : Bet.set_needs_reply p.1 bet_id = Except.ok (db2, bet2) := h
      unfold Sig.create_all at hca
      cases hhd : (mkNewSigs db.next_sig_id bet_id false sigs).head? with
      | none => rw [hhd] at hca; exact Except.noConfusion hca
      | some r0 =>
        rw [hhd] at hca
        injection hca with hca2
        have hp1 : p.1 =
            { db with
                sigs := db.sigs ++ mkNewSigs db.next_sig_id bet_id false sigs
                next_sig_id := db.next_sig_id + sigs.length } := by
          rw [← hca2]
        unfold Bet.set_needs_reply at h2
        cases hfind : p.1.bets.find? (fun b => b.id == bet_id) with
        | none => rw [hfind] at h2; exact Except.noConfusion h2
        | some b0 =>
          rw [hfind] at h2
          injection h2 with h3
          injection h3 with hdb2 hbet2
          have hbets1 : p.1.bets = db.bets := by rw [hp1]
          refine ⟨?_, ?_, ?_⟩
          · rw [← hbet2]
          · intro b1 hb1
            rw [hbets1] at hfind
            rw [Bet.get_by_id] at hb1
            rw [hfind] at hb1
            injection hb1 with hb0
            rw [← hbet2, hb0]
            exact ⟨rfl, rfl⟩
          · intro x hx
            obtain ⟨r, hr, hprops⟩ :=
              mkNewSigs_mem db.next_sig_id bet_id false sigs x hx
            refine ⟨r, ?_, hprops⟩
            rw [← hdb2]
            have hsigs : p.1.sigs =
                db.sigs ++ mkNewSigs db.next_sig_id bet_id false sigs := by
              rw [hp1]
            simp [hsigs, hr]

/-- Claim C7 witness: the amended claim evaluated on concrete stores: a
missing bet, an already replied bet, and a successful reply whose returned
bet keeps the stored outcome ids and whose store holds the inserted party
B row. -/
theorem c7_witness :
    add_sigs_impl envOk dbEmpty reqC7 = .error "bet not found" ∧
    add_sigs_impl envOk dbC7done reqC7 = .error "bet already setup" ∧
    betC7r.needs_reply = false ∧
    betC7r.win_outcome_event_id = betC7.win_outcome_event_id ∧
    betC7r.lose_outcome_event_id = betC7.lose_outcome_event_id ∧
    ∃ r ∈ dbC7r.sigs, r.bet_id = 1 ∧ r.is_party_a = false ∧
      r.outcome = "H" ∧ r.sig = 43 ∧ r.is_win = true := by
  have h1 := c7_add_reply envOk dbEmpty reqC7 1 [("H", 43, true)] dbC7r betC7r
  have h2 := c7_add_reply envOk dbC7done reqC7 1 [("H", 43, true)] dbC7r betC7r
  have h3 := c7_add_reply envOk dbC7 reqC7 1 [("H", 43, true)] dbC7r betC7r
  refine ⟨h1.1 rfl, h2.2.1 betC7done rfl rfl, ?_, ?_, ?_, ?_⟩
  · exact (h3.2.2 rfl).1
  · exact ((h3.2.2 rfl).2.1 betC7 rfl).1
  · exact ((h3.2.2 rfl).2.1 betC7 rfl).2
  · simpa using (h3.2.2 rfl).2.2 ("H", 43, true) (by simp)

/-! Claim C10. -/

/-- A successful Models.create_bet insert yields a bet row whose user_a is
the author key of the win_a event and whose user_b is the author key of
the win_b event. -/
theorem models_create_bet_mem (db : Db) (ann : OracleAnnouncement)
    (wa la wb lb : UnsignedEvent) (oid : EventId)
    (sigs : List (String × EncSig × Bool)) (db2 : Db) (idr : Int)
    (h : Models.create_bet db ann wa la wb lb oid sigs = .ok (db2, idr)) :
    ∃ b ∈ db2.bets, b.id = idr ∧ b.user_a = wa.pubkey ∧ b.user_b = wb.pubkey := by
  unfold Models.create_bet at h
  cases hca : Sig.create_all
      (Bet.create db ann wa la wb lb oid).1
      (Bet.create db ann wa la wb lb oid).2.id true sigs with
  | error e => rw [hca] at h; exact Except.noConfusion h
  | ok p =>
    rw [hca] at h
    have h2 : (Except.ok (p.1, (Bet.create db ann wa la wb lb oid).2.id) :
        Except String (Db × Int)) = Except.ok (db2, idr) := h
    injection h2 with h3
    injection h3 with hdb2 hidr
    unfold Sig.create_all at hca
    cases hhd : (mkNewSigs (Bet.create db ann wa la wb lb oid).1.next_sig_id
        (Bet.create db ann wa la wb lb oid).2.id true sigs).head? with
    | none => rw [hhd] at hca; exact Except.noConfusion hca
    | some r0 =>
      rw [hhd] at hca
      injection hca with hca2
      have hp1bets : p.1.bets = (Bet.create db ann wa la wb lb oid).1.bets := by
        rw [← hca2]
      refine ⟨(Bet.create db ann wa la wb lb oid).2, ?_, ?_, rfl, rfl⟩
      · rw [← hdb2, hp1bets]
        have : (Bet.create db ann wa la wb lb oid).1.bets =
            db.bets ++ [(Bet.create db ann wa la wb lb oid).2] := rfl
        rw [this]
        simp
      · rw [← hidr]

/-- Claim C10: the persisted bet takes user_a from the author key of the
submitted win_a event and user_b from the author key of the win_b event
(the parties supply no separate key fields), and a successful
create_bet_impl run stores exactly the keys of the submitted win events —
the same win event whose author key create_bet_impl decodes as the
verification key for the submitted signatures. -/
theorem c10_party_keys_from_win_events
    (db : Db) (ann : OracleAnnouncement) (wa la wb lb : UnsignedEvent)
    (oid : EventId) (env : RoutesEnv) (db2 : Db) (req : CreateBetRequest)
    (db2r : Db) (idr : Int) :
    ((Bet.create db ann wa la wb lb oid).2.user_a = wa.pubkey ∧
      (Bet.create db ann wa la wb lb oid).2.user_b = wb.pubkey) ∧
    (create_bet_impl env db2 req = .ok (db2r, idr) →
      ∃ b ∈ db2r.bets, b.id = idr ∧
        b.user_a = req.win_event.pubkey ∧
        b.user_b = req.counterparty_win_event.pubkey) := by
  refine ⟨⟨rfl, rfl⟩, ?_⟩
  intro h
  simp only [create_bet_impl] at h
  repeat' split at h
  all_goals try exact Except.noConfusion h
  exact models_create_bet_mem _ _ _ _ _ _ _ _ _ _ h

/-- Claim C10 witness: the concrete successful create run stores user_a 1
and user_b 2, the author keys of the submitted win events. -/
theorem c10_witness :
    ∃ b ∈ dbC1r.bets, b.id = 1 ∧
      b.user_a = reqC1.win_event.pubkey ∧
      b.user_b = reqC1.counterparty_win_event.pubkey := by
  exact (c10_party_keys_from_win_events dbEmpty annH
    { pubkey := 1, id := 100 } { pubkey := 1, id := 101 }
    { pubkey := 2, id := 200 } { pubkey := 2, id := 201 } 9
    envOk dbEmpty reqC1 dbC1r 1).2 rfl

end NoteDuel
